import Mathlib

/-!
Shallow embedding of the DingTalk MCP server (src/src/server.py).

Modelling conventions:
  * Wall-clock time (Python `time.time()`) is an integer number of seconds,
    supplied as `Env.now`; within one call all reads of the clock coincide.
  * Parsed JSON responses are structures; a field that may be absent from the
    upstream payload is an `Option`.  Python truthiness of an optional string
    (`None` and `""` are falsy) is `truthy`.
  * Each HTTP exchange is an oracle in `Env` returning `Except String resp`;
    a `.error` models a transport-level exception from the HTTP client.
  * Every operation returns, besides its result, the list of transport calls
    it performed (`Call`), so cache hits and fan-out counts are observable.
  * Raised Python exceptions are `Except.error msg`; the textual form of a
    payload interpolated into an exception message is given by the `render`
    functions.
  * The host timezone used by `datetime.fromtimestamp` is modelled as the
    fixed offset UTC+8, matching the `+08:00` suffix the code appends.
-/

structure TextContent where
  type : String
  text : String
deriving DecidableEq, Repr

structure Department where
  id : Int
  name : String
deriving DecidableEq, Repr

structure UserSummary where
  userid : String
  name : String
deriving DecidableEq, Repr

structure LegacyTokenResp where
  errcode : Option Int
  errmsg : String
  access_token : String
  expires_in : Int
deriving DecidableEq, Repr

structure V2TokenResp where
  accessToken : Option String
  expireIn : Option Int
  code : String
  message : String
deriving DecidableEq, Repr

structure DeptListResp where
  errcode : Option Int
  errmsg : String
  department : List Department
deriving DecidableEq, Repr

structure DeptUsersResp where
  errcode : Option Int
  errmsg : String
  userlist : List UserSummary
deriving DecidableEq, Repr

structure UserDetailResp where
  errcode : Option Int
  errmsg : String
  userid : String
  name : String
  mobile : String
deriving DecidableEq, Repr

structure UnionIdResp where
  errcode : Option Int
  errmsg : String
  unionid : String
deriving DecidableEq, Repr

structure EventTime where
  dateTime : Option String
deriving DecidableEq, Repr

structure MeetingLocation where
  meetingRooms : Option (List String)
deriving DecidableEq, Repr

structure EventPerson where
  displayName : Option String
deriving DecidableEq, Repr

structure Attendee where
  displayName : Option String
  responseStatus : Option String
deriving DecidableEq, Repr

structure OnlineExtraInfo where
  extraUrl : Option String
deriving DecidableEq, Repr

structure OnlineMeetingInfo where
  extraInfo : Option OnlineExtraInfo
deriving DecidableEq, Repr

structure UpstreamEvent where
  summary : Option String
  start : Option EventTime
  finish : Option EventTime
  location : Option MeetingLocation
  organizer : Option EventPerson
  description : Option String
  status : Option String
  attendees : Option (List Attendee)
  onlineMeetingInfo : Option OnlineMeetingInfo
deriving DecidableEq, Repr

structure FormattedAttendee where
  name : String
  response : String
deriving DecidableEq, Repr

structure FormattedEvent where
  summary : String
  start_time : Option String
  end_time : Option String
  location : String
  organizer : String
  description : String
  status : String
  attendees : List FormattedAttendee
  online_meeting : String
deriving DecidableEq, Repr

structure CalendarReq where
  maxResults : Int
  timeMin : String
  timeMax : String
  nextToken : Option String
deriving DecidableEq, Repr

structure CalendarResp where
  events : Option (List UpstreamEvent)
  nextToken : Option String
  code : String
  message : String
deriving DecidableEq, Repr

/-- One transport-level exchange with the upstream vendor. -/
inductive Call where
  | legacyToken
  | v2Token
  | deptList
  | deptUsers (department_id : Int)
  | userDetail (userid : String)
  | unionId (userid : String)
  | calendar (unionid : String) (req : CalendarReq)
deriving DecidableEq, Repr

/-- The ambient world of one invocation: environment variables, the clock, and
an oracle giving the upstream response of each endpoint. -/
structure Env where
  appKey : Option String
  appSecret : Option String
  now : Int
  legacyTokenResp : Except String LegacyTokenResp
  v2TokenResp : Except String V2TokenResp
  deptListResp : Except String DeptListResp
  deptUsersResp : Int → Except String DeptUsersResp
  userDetailResp : String → Except String UserDetailResp
  unionIdResp : String → Except String UnionIdResp
  calendarResp : String → CalendarReq → Except String CalendarResp

/-- The mutable fields of `DingdingMCPServer` relevant to the claims. -/
structure ServerState where
  access_token : Option String
  token_expires : Int
  v2_access_token : Option String
  v2_token_expires : Int
deriving DecidableEq, Repr

/-- `DingdingMCPServer.__init__`: the token slots start empty; no environment
variable is consulted during construction. -/
def ServerState.init : ServerState :=
  { access_token := none, token_expires := 0
    v2_access_token := none, v2_token_expires := 0 }

/-- Python truthiness of an optional string: `None` and `""` are falsy. -/
def truthy : Option String → Bool
  | none => false
  | some s => s != ""

def renderOptInt : Option Int → String
  | none => "None"
  | some n => toString n

def renderOptStr : Option String → String
  | none => "None"
  | some s => s

/-- Textual form of the legacy token payload as interpolated into messages. -/
def LegacyTokenResp.render (r : LegacyTokenResp) : String :=
  "errcode: " ++ renderOptInt r.errcode ++ ", errmsg: " ++ r.errmsg ++
    ", access_token: " ++ r.access_token ++ ", expires_in: " ++ toString r.expires_in

/-- Textual form of the v2 token payload as interpolated into messages. -/
def V2TokenResp.render (r : V2TokenResp) : String :=
  "accessToken: " ++ renderOptStr r.accessToken ++ ", expireIn: " ++
    renderOptInt r.expireIn ++ ", code: " ++ r.code ++ ", message: " ++ r.message

def DeptListResp.render (r : DeptListResp) : String :=
  "errcode: " ++ renderOptInt r.errcode ++ ", errmsg: " ++ r.errmsg

def DeptUsersResp.render (r : DeptUsersResp) : String :=
  "errcode: " ++ renderOptInt r.errcode ++ ", errmsg: " ++ r.errmsg

def UnionIdResp.render (r : UnionIdResp) : String :=
  "errcode: " ++ renderOptInt r.errcode ++ ", errmsg: " ++ r.errmsg

def CalendarResp.render (r : CalendarResp) : String :=
  "code: " ++ r.code ++ ", message: " ++ r.message

/-- The guard `self.access_token and time.time() < self.token_expires`. -/
def legacyCacheValid (env : Env) (s : ServerState) : Bool :=
  truthy s.access_token && decide (env.now < s.token_expires)

/-- The guard `self.v2_access_token and time.time() < self.v2_token_expires`. -/
def v2CacheValid (env : Env) (s : ServerState) : Bool :=
  truthy s.v2_access_token && decide (env.now < s.v2_token_expires)

/-- The guard `not all([app_key, app_secret])` is false, i.e. both
environment-provided credentials are present and non-empty. -/
def credsPresent (env : Env) : Bool :=
  truthy env.appKey && truthy env.appSecret

def missingCredsMsg : String :=
  "Missing DingTalk API credentials in environment variables"

/-- `DingdingMCPServer.get_access_token` (legacy scope), lines 42 to 73. -/
def get_access_token (env : Env) (s : ServerState) :
    Except String String × ServerState × List Call :=
  if legacyCacheValid env s then
    (.ok (s.access_token.getD ""), s, [])
  else if !credsPresent env then
    (.error missingCredsMsg, s, [])
  else
    match env.legacyTokenResp with
    | .error e => (.error e, s, [.legacyToken])
    | .ok r =>
      if r.errcode = some 0 then
        (.ok r.access_token,
          { s with access_token := some r.access_token
                   token_expires := env.now + r.expires_in - 200 },
          [.legacyToken])
      else
        (.error ("Failed to get access token: " ++ r.render), s, [.legacyToken])

/-- `DingdingMCPServer.get_v2_access_token` (v2 scope), lines 75 to 106. -/
def get_v2_access_token (env : Env) (s : ServerState) :
    Except String String × ServerState × List Call :=
  if v2CacheValid env s then
    (.ok (s.v2_access_token.getD ""), s, [])
  else if !credsPresent env then
    (.error missingCredsMsg, s, [])
  else
    match env.v2TokenResp with
    | .error e => (.error e, s, [.v2Token])
    | .ok r =>
      match r.accessToken with
      | some tok =>
        (.ok tok,
          { s with v2_access_token := some tok
                   v2_token_expires := env.now + r.expireIn.getD 7200 - 200 },
          [.v2Token])
      | none =>
        (.error ("Failed to get v2 access token: " ++ r.render), s, [.v2Token])

/-- `DingdingMCPServer.get_department_list`, lines 108 to 118. -/
def get_department_list (env : Env) (_access_token : String) :
    Except String (List Department) × List Call :=
  match env.deptListResp with
  | .error e => (.error e, [.deptList])
  | .ok r =>
    if r.errcode = some 0 then (.ok r.department, [.deptList])
    else (.error ("Failed to get department list: " ++ r.render), [.deptList])

/-- `DingdingMCPServer.get_department_users`, lines 120 to 133. -/
def get_department_users (env : Env) (_access_token : String) (department_id : Int) :
    Except String (List UserSummary) × List Call :=
  match env.deptUsersResp department_id with
  | .error e => (.error e, [.deptUsers department_id])
  | .ok r =>
    if r.errcode = some 0 then (.ok r.userlist, [.deptUsers department_id])
    else (.error ("Failed to get department users: " ++ r.render), [.deptUsers department_id])

/-- `DingdingMCPServer.get_user_detail`, lines 135 to 148; on success the whole
parsed payload is returned. -/
def get_user_detail (env : Env) (_access_token : String) (userid : String) :
    Except String UserDetailResp × List Call :=
  match env.userDetailResp userid with
  | .error e => (.error e, [.userDetail userid])
  | .ok r =>
    if r.errcode = some 0 then (.ok r, [.userDetail userid])
    else (.error ("Failed to get user detail: " ++ renderOptInt r.errcode ++ ", errmsg: " ++ r.errmsg), [.userDetail userid])

/-- `DingdingMCPServer.get_user_unionid`, lines 150 to 168. -/
def get_user_unionid (env : Env) (_access_token : String) (userid : String) :
    Except String String × List Call :=
  match env.unionIdResp userid with
  | .error e => (.error e, [.unionId userid])
  | .ok r =>
    if r.errcode = some 0 then (.ok r.unionid, [.unionId userid])
    else (.error ("Failed to get user unionid: " ++ r.render), [.unionId userid])

/-- Left-pad a day-or-time component to two digits, as `strftime` does. -/
def pad2 (n : Int) : String :=
  if n < 10 then "0" ++ toString n else toString n

/-- Left-pad the year to four digits, as `strftime` `%Y` does. -/
def pad4 (n : Int) : String :=
  if n < 10 then "000" ++ toString n
  else if n < 100 then "00" ++ toString n
  else if n < 1000 then "0" ++ toString n
  else toString n

/-- Proleptic-Gregorian date of a day count relative to 1970-01-01
(the standard civil-from-days conversion used by calendar libraries). -/
def civilFromDays (z0 : Int) : Int × Int × Int :=
  let z := z0 + 719468
  let era := Int.fdiv z 146097
  let doe := z - era * 146097
  let yoe := Int.fdiv (doe - Int.fdiv doe 1460 + Int.fdiv doe 36524 - Int.fdiv doe 146096) 365
  let y := yoe + era * 400
  let doy := doe - (365 * yoe + Int.fdiv yoe 4 - Int.fdiv yoe 100)
  let mp := Int.fdiv (5 * doy + 2) 153
  let d := doy - Int.fdiv (153 * mp + 2) 5 + 1
  let m := mp + (if mp < 10 then 3 else -9)
  (if m ≤ 2 then y + 1 else y, m, d)

/-- `datetime.fromtimestamp(ms / 1000).strftime("%Y-%m-%dT%H:%M:%S+08:00")`
with the host timezone modelled as the fixed offset UTC+8. -/
def fmtDingTime (ms : Int) : String :=
  let secs := Int.fdiv ms 1000
  let localSecs := secs + 8 * 3600
  let days := Int.fdiv localSecs 86400
  let sod := localSecs % 86400
  let ymd := civilFromDays days
  pad4 ymd.1 ++ "-" ++ pad2 ymd.2.1 ++ "-" ++ pad2 ymd.2.2 ++ "T" ++
    pad2 (Int.fdiv sod 3600) ++ ":" ++ pad2 (Int.fdiv (sod % 3600) 60) ++ ":" ++
    pad2 (sod % 60) ++ "+08:00"

/-- `DingdingMCPServer.get_calendar_list`, lines 170 to 206: resolve the
union id, default absent (or falsy) time bounds to now and now plus seven
days, format both bounds, attach the pagination token when truthy, and
require an `events` field in the response. -/
def get_calendar_list (env : Env) (access_token userid : String)
    (start_time end_time : Option Int) (max_results : Int) (next_token : Option String) :
    Except String CalendarResp × List Call :=
  match get_user_unionid env access_token userid with
  | (.error e, c) => (.error e, c)
  | (.ok unionid, c) =>
    let st : Int :=
      match start_time with
      | none => env.now * 1000
      | some v => if v = 0 then env.now * 1000 else v
    let et : Int :=
      match end_time with
      | none => (env.now + 7 * 24 * 3600) * 1000
      | some v => if v = 0 then (env.now + 7 * 24 * 3600) * 1000 else v
    let req : CalendarReq :=
      { maxResults := max_results, timeMin := fmtDingTime st, timeMax := fmtDingTime et
        nextToken := if truthy next_token then next_token else none }
    match env.calendarResp unionid req with
    | .error e => (.error e, c ++ [.calendar unionid req])
    | .ok r =>
      if r.events.isSome then (.ok r, c ++ [.calendar unionid req])
      else (.error ("Failed to get calendar list: " ++ r.render), c ++ [.calendar unionid req])

/-- Normalization of one attendee record in the `get_calendar_list` branch of
`call_tool`. -/
def formatAttendee (a : Attendee) : FormattedAttendee :=
  { name := a.displayName.getD "未知", response := a.responseStatus.getD "未知" }

/-- Normalization of one upstream event in the `get_calendar_list` branch of
`call_tool`, lines 401 to 419: chained `.get` defaults for every field. -/
def formatEvent (e : UpstreamEvent) : FormattedEvent :=
  { summary := e.summary.getD "无标题"
    start_time := e.start.bind EventTime.dateTime
    end_time := e.finish.bind EventTime.dateTime
    location :=
      match e.location.bind MeetingLocation.meetingRooms with
      | some (r :: _) => r
      | some [] => "无地点"
      | none => "无地点"
    organizer := (e.organizer.bind EventPerson.displayName).getD "未知"
    description := e.description.getD "无描述"
    status := e.status.getD "未知"
    attendees := (e.attendees.getD []).map formatAttendee
    online_meeting :=
      ((e.onlineMeetingInfo.bind OnlineMeetingInfo.extraInfo).bind
        OnlineExtraInfo.extraUrl).getD "无会议链接" }

/-- Inner loop of the `find_user_by_name` branch: scan the member summaries of
one department, fetching the detail of every member whose name matches. -/
def detailLoop (env : Env) (tok target : String) :
    List UserSummary → Except String (List UserDetailResp) × List Call
  | [] => (.ok [], [])
  | u :: us =>
    if u.name == target then
      match get_user_detail env tok u.userid with
      | (.error e, c) => (.error e, c)
      | (.ok det, c) =>
        match detailLoop env tok target us with
        | (.error e, c2) => (.error e, c ++ c2)
        | (.ok rest, c2) => (.ok (det :: rest), c ++ c2)
    else detailLoop env tok target us

/-- Outer loop of the `find_user_by_name` branch, lines 346 to 351: fetch the
member list of every department in order, never stopping early, and collect
the details of all matches. -/
def findUserLoop (env : Env) (tok target : String) :
    List Department → Except String (List UserDetailResp) × List Call
  | [] => (.ok [], [])
  | d :: ds =>
    match get_department_users env tok d.id with
    | (.error e, c) => (.error e, c)
    | (.ok users, c) =>
      match detailLoop env tok target users with
      | (.error e, c2) => (.error e, c ++ c2)
      | (.ok founds, c2) =>
        match findUserLoop env tok target ds with
        | (.error e, c3) => (.error e, c ++ c2 ++ c3)
        | (.ok rest, c3) => (.ok (founds ++ rest), c ++ c2 ++ c3)

def UserDetailResp.render (u : UserDetailResp) : String :=
  "userid: " ++ u.userid ++ ", name: " ++ u.name ++ ", mobile: " ++ u.mobile

def renderUserDetails : List UserDetailResp → String
  | [] => ""
  | [u] => u.render
  | u :: us => u.render ++ "; " ++ renderUserDetails us

/-- Rendering of the found-users envelope built at lines 354 to 358. -/
def renderFoundUsers (found : List UserDetailResp) : String :=
  "total: " ++ toString found.length ++ ", users: [" ++ renderUserDetails found ++ "]"

def Department.render (d : Department) : String :=
  "id: " ++ toString d.id ++ ", name: " ++ d.name

def renderDepartments : List Department → String
  | [] => ""
  | [d] => d.render
  | d :: ds => d.render ++ "; " ++ renderDepartments ds

def UserSummary.render (u : UserSummary) : String :=
  "userid: " ++ u.userid ++ ", name: " ++ u.name

def renderUserSummaries : List UserSummary → String
  | [] => ""
  | [u] => u.render
  | u :: us => u.render ++ "; " ++ renderUserSummaries us

def FormattedAttendee.render (a : FormattedAttendee) : String :=
  "name: " ++ a.name ++ ", response: " ++ a.response

def renderFormattedAttendees : List FormattedAttendee → String
  | [] => ""
  | [a] => a.render
  | a :: more => a.render ++ "; " ++ renderFormattedAttendees more

def FormattedEvent.render (e : FormattedEvent) : String :=
  "summary: " ++ e.summary ++ ", start_time: " ++ renderOptStr e.start_time ++
    ", end_time: " ++ renderOptStr e.end_time ++ ", location: " ++ e.location ++
    ", organizer: " ++ e.organizer ++ ", description: " ++ e.description ++
    ", status: " ++ e.status ++ ", attendees: [" ++
    renderFormattedAttendees e.attendees ++ "], online_meeting: " ++ e.online_meeting

def renderFormattedEvents : List FormattedEvent → String
  | [] => ""
  | [e] => e.render
  | e :: es => e.render ++ "; " ++ renderFormattedEvents es

/-- Rendering of the calendar envelope built at lines 421 to 425. -/
def renderCalendarEnvelope (events : List FormattedEvent) (next_token : Option String) : String :=
  "events: [" ++ renderFormattedEvents events ++ "], next_token: " ++
    renderOptStr next_token ++ ", total: " ++ toString events.length

/-- The argument mapping of a tool invocation; a `none` field is an absent key. -/
structure Arguments where
  name : Option String := none
  department_id : Option Int := none
  userid : Option String := none
  start_time : Option Int := none
  end_time : Option Int := none
  max_results : Option Int := none
  next_token : Option String := none
deriving DecidableEq, Repr

/-- The message of the `KeyError` raised by a lookup of an absent key. -/
def keyErrorMsg (k : String) : String :=
  "\x27" ++ k ++ "\x27"

/-- One textual error result of the dispatcher: the except block at lines 433
to 435 formats the current value of the local variable `name`. -/
def errText (nameVar e : String) : List TextContent :=
  [{ type := "text", text := "Error calling tool " ++ nameVar ++ ": " ++ e }]

/-- The `call_tool` dispatcher, lines 328 to 435.  Every branch is wrapped by
the try/except of lines 333 and 433: a raised exception becomes a textual
error result formatted with the current value of the local variable `name`.
In the `find_user_by_name` branch the assignment at line 340 rebinds `name`
to the searched user name, so later failures are tagged with that value;
the `KeyError` from an absent required argument is raised at the branch head
debug line, before any token or upstream call. -/
def call_tool (env : Env) (s : ServerState) (toolName : String) (args : Arguments) :
    List TextContent × ServerState × List Call :=
  if toolName = "get_access_token" then
    match get_access_token env s with
    | (.ok tok, s2, c) =>
      ([{ type := "text", text := "Access Token: " ++ tok }], s2, c)
    | (.error e, s2, c) => (errText toolName e, s2, c)
  else if toolName = "find_user_by_name" then
    match args.name with
    | none => (errText toolName (keyErrorMsg "name"), s, [])
    | some target =>
      match get_access_token env s with
      | (.error e, s2, c) => (errText target e, s2, c)
      | (.ok tok, s2, c) =>
        match get_department_list env tok with
        | (.error e, c2) => (errText target e, s2, c ++ c2)
        | (.ok depts, c2) =>
          match findUserLoop env tok target depts with
          | (.error e, c3) => (errText target e, s2, c ++ c2 ++ c3)
          | (.ok found, c3) =>
            if found.isEmpty then
              ([{ type := "text", text := "User not found: " ++ target }], s2, c ++ c2 ++ c3)
            else
              ([{ type := "text", text := "Found users: " ++ renderFoundUsers found }],
                s2, c ++ c2 ++ c3)
  else if toolName = "get_department_list" then
    match get_access_token env s with
    | (.error e, s2, c) => (errText toolName e, s2, c)
    | (.ok tok, s2, c) =>
      match get_department_list env tok with
      | (.error e, c2) => (errText toolName e, s2, c ++ c2)
      | (.ok depts, c2) =>
        ([{ type := "text", text := "Department list: " ++ renderDepartments depts }],
          s2, c ++ c2)
  else if toolName = "get_department_users" then
    match args.department_id with
    | none => (errText toolName (keyErrorMsg "department_id"), s, [])
    | some did =>
      match get_access_token env s with
      | (.error e, s2, c) => (errText toolName e, s2, c)
      | (.ok tok, s2, c) =>
        match get_department_users env tok did with
        | (.error e, c2) => (errText toolName e, s2, c ++ c2)
        | (.ok users, c2) =>
          ([{ type := "text", text := "Department users: " ++ renderUserSummaries users }],
            s2, c ++ c2)
  else if toolName = "get_user_detail" then
    match args.userid with
    | none => (errText toolName (keyErrorMsg "userid"), s, [])
    | some uid =>
      match get_access_token env s with
      | (.error e, s2, c) => (errText toolName e, s2, c)
      | (.ok tok, s2, c) =>
        match get_user_detail env tok uid with
        | (.error e, c2) => (errText toolName e, s2, c ++ c2)
        | (.ok det, c2) =>
          ([{ type := "text", text := "User detail: " ++ det.render }], s2, c ++ c2)
  else if toolName = "get_calendar_list" then
    match args.userid with
    | none => (errText toolName (keyErrorMsg "userid"), s, [])
    | some uid =>
      match get_v2_access_token env s with
      | (.error e, s2, c) => (errText toolName e, s2, c)
      | (.ok tok, s2, c) =>
        match get_calendar_list env tok uid args.start_time args.end_time
            (args.max_results.getD 50) args.next_token with
        | (.error e, c2) => (errText toolName e, s2, c ++ c2)
        | (.ok cal, c2) =>
          let fes := (cal.events.getD []).map formatEvent
          ([{ type := "text",
              text := "Calendar events: " ++ renderCalendarEnvelope fes cal.nextToken }],
            s2, c ++ c2)
  else
    ([{ type := "text", text := "Unknown tool: " ++ toolName }], s, [])

/-- A directory fixture: a department list, the member summaries of each
department and the detail record of each user, all calls succeeding. -/
structure Directory where
  depts : List Department
  users : Int → List UserSummary
  detail : String → UserDetailResp

/-- The environment induced by a directory fixture at a given clock value:
credentials present, every lookup succeeds with error code zero. -/
def Directory.env (d : Directory) (now : Int) : Env :=
  { appKey := some "key", appSecret := some "secret", now := now
    legacyTokenResp := .ok { errcode := some 0, errmsg := "ok",
                             access_token := "LTOK", expires_in := 7200 }
    v2TokenResp := .ok { accessToken := some "VTOK", expireIn := some 7200,
                         code := "0", message := "ok" }
    deptListResp := .ok { errcode := some 0, errmsg := "ok", department := d.depts }
    deptUsersResp := fun i => .ok { errcode := some 0, errmsg := "ok", userlist := d.users i }
    userDetailResp := fun u => .ok { d.detail u with errcode := some 0 }
    unionIdResp := fun u => .ok { errcode := some 0, errmsg := "ok", unionid := "union-" ++ u }
    calendarResp := fun _ _ => .ok { events := some [], nextToken := none,
                                     code := "0", message := "ok" } }

/-- All member summaries across the departments whose name matches the target,
in department order. -/
def matchingSummaries (d : Directory) (target : String) : List Department → List UserSummary
  | [] => []
  | dep :: rest =>
    (d.users dep.id).filter (fun u => u.name == target) ++ matchingSummaries d target rest

/-- The detail records the search is expected to collect, in visit order. -/
def expectedFound (d : Directory) (target : String) : List Department → List UserDetailResp
  | [] => []
  | dep :: rest =>
    ((d.users dep.id).filter (fun u => u.name == target)).map
        (fun u => { d.detail u.userid with errcode := some 0 }) ++
      expectedFound d target rest

/-- The transport calls the search loop is expected to make: one membership
call per department in order, one detail call per matching summary. -/
def expectedFindTrace (d : Directory) (target : String) : List Department → List Call
  | [] => []
  | dep :: rest =>
    Call.deptUsers dep.id ::
      (((d.users dep.id).filter (fun u => u.name == target)).map
          (fun u => Call.userDetail u.userid) ++
        expectedFindTrace d target rest)

def Call.deptUsersId : Call → Option Int
  | .deptUsers i => some i
  | _ => none

def Call.userDetailId : Call → Option String
  | .userDetail u => some u
  | _ => none

def Call.isDeptList : Call → Bool
  | .deptList => true
  | _ => false

/-- A two-department fixture used by concrete tests and witnesses. -/
def sampleDir : Directory :=
  { depts := [{ id := 1, name := "eng" }, { id := 2, name := "sales" }]
    users := fun i =>
      if i = 1 then
        [{ userid := "u1", name := "Alice" }, { userid := "u2", name := "Bob" }]
      else if i = 2 then
        [{ userid := "u3", name := "Alice" }]
      else []
    detail := fun u =>
      { errcode := some 0, errmsg := "ok", userid := u, name := "nm-" ++ u,
        mobile := "m-" ++ u } }

/-- A cached-token state that is still valid at clock value 100. -/
def cachedState : ServerState :=
  { access_token := some "CTOK", token_expires := 1000
    v2_access_token := some "CV2", v2_token_expires := 1000 }

/-- An environment like the fixture but with a transport failure on the
department-list endpoint. -/
def deptListFailEnv : Env :=
  { sampleDir.env 100 with deptListResp := .error "Connection reset by peer" }

/-- An environment in which both credential variables are absent. -/
def noCredEnv : Env :=
  { sampleDir.env 100 with appKey := none, appSecret := none }

/-- An environment whose legacy token exchange is logically rejected. -/
def legacyAuthFailEnv : Env :=
  { sampleDir.env 100 with
      legacyTokenResp := .ok { errcode := some 40089, errmsg := "invalid credential",
                               access_token := "", expires_in := 7200 } }

/-- An environment whose v2 token exchange returns no token field. -/
def v2AuthFailEnv : Env :=
  { sampleDir.env 100 with
      v2TokenResp := .ok { accessToken := none, expireIn := none,
                           code := "Forbidden", message := "invalid appKey" } }

/-- An upstream event carrying none of the optional fields. -/
def emptyEvent : UpstreamEvent :=
  { summary := none, start := none, finish := none, location := none,
    organizer := none, description := none, status := none,
    attendees := none, onlineMeetingInfo := none }

/-- An upstream event with a meeting room but no other optional field. -/
def sampleEvent : UpstreamEvent :=
  { summary := none, start := none, finish := none,
    location := some { meetingRooms := some ["RoomA"] },
    organizer := none, description := none, status := none,
    attendees := none, onlineMeetingInfo := none }

/-- Cache hit for the legacy scope: a present, non-empty token whose stored
expiry lies in the future is returned unchanged with no transport call. -/
theorem get_access_token_cached (env : Env) (s : ServerState) (t : String)
    (hs : s.access_token = some t) (ht : t ≠ "") (hlt : env.now < s.token_expires) :
    get_access_token env s = (.ok t, s, []) := by
  have hv : legacyCacheValid env s = true := by
    simp [legacyCacheValid, truthy, hs, ht, hlt]
  simp [get_access_token, hv, hs]

/-- Cache hit for the v2 scope. -/
theorem get_v2_access_token_cached (env : Env) (s : ServerState) (t : String)
    (hs : s.v2_access_token = some t) (ht : t ≠ "") (hlt : env.now < s.v2_token_expires) :
    get_v2_access_token env s = (.ok t, s, []) := by
  have hv : v2CacheValid env s = true := by
    simp [v2CacheValid, truthy, hs, ht, hlt]
  simp [get_v2_access_token, hv, hs]

/-- Cache miss for the legacy scope with credentials present and a logically
successful exchange: exactly one transport call, the token is stored with the
200 second margin and returned. -/
theorem get_access_token_fresh (env : Env) (s : ServerState) (r : LegacyTokenResp)
    (hc : legacyCacheValid env s = false) (hk : credsPresent env = true)
    (hr : env.legacyTokenResp = .ok r) (h0 : r.errcode = some 0) :
    get_access_token env s =
      (.ok r.access_token,
        { s with access_token := some r.access_token
                 token_expires := env.now + r.expires_in - 200 },
        [.legacyToken]) := by
  simp [get_access_token, hc, hk, hr, h0]

/-- Cache miss for the v2 scope with credentials present and a token field in
the response: exactly one transport call, stored with the 200 second margin. -/
theorem get_v2_access_token_fresh (env : Env) (s : ServerState) (r : V2TokenResp) (tok : String)
    (hc : v2CacheValid env s = false) (hk : credsPresent env = true)
    (hr : env.v2TokenResp = .ok r) (h0 : r.accessToken = some tok) :
    get_v2_access_token env s =
      (.ok tok,
        { s with v2_access_token := some tok
                 v2_token_expires := env.now + r.expireIn.getD 7200 - 200 },
        [.v2Token]) := by
  simp [get_v2_access_token, hc, hk, hr, h0]

/-- Missing credentials abort a legacy refresh before any transport call. -/
theorem get_access_token_no_creds (env : Env) (s : ServerState)
    (hc : legacyCacheValid env s = false) (hk : credsPresent env = false) :
    get_access_token env s = (.error missingCredsMsg, s, []) := by
  simp [get_access_token, hc, hk]

/-- Missing credentials abort a v2 refresh before any transport call. -/
theorem get_v2_access_token_no_creds (env : Env) (s : ServerState)
    (hc : v2CacheValid env s = false) (hk : credsPresent env = false) :
    get_v2_access_token env s = (.error missingCredsMsg, s, []) := by
  simp [get_v2_access_token, hc, hk]

/-- A legacy exchange whose response carries a non-zero error code raises,
with the rendered payload in the message, and stores nothing. -/
theorem get_access_token_authfail (env : Env) (s : ServerState) (r : LegacyTokenResp) (c : Int)
    (hc : legacyCacheValid env s = false) (hk : credsPresent env = true)
    (hr : env.legacyTokenResp = .ok r) (h0 : r.errcode = some c) (hcz : c ≠ 0) :
    get_access_token env s =
      (.error ("Failed to get access token: " ++ r.render), s, [.legacyToken]) := by
  simp [get_access_token, hc, hk, hr, h0, hcz]

/-- A v2 exchange whose response lacks the token field raises, with the
rendered payload in the message, and stores nothing. -/
theorem get_v2_access_token_authfail (env : Env) (s : ServerState) (r : V2TokenResp)
    (hc : v2CacheValid env s = false) (hk : credsPresent env = true)
    (hr : env.v2TokenResp = .ok r) (h0 : r.accessToken = none) :
    get_v2_access_token env s =
      (.error ("Failed to get v2 access token: " ++ r.render), s, [.v2Token]) := by
  simp [get_v2_access_token, hc, hk, hr, h0]

theorem Directory.env_now (d : Directory) (now : Int) : (d.env now).now = now := rfl

theorem Directory.env_deptListResp (d : Directory) (now : Int) :
    (d.env now).deptListResp =
      .ok { errcode := some 0, errmsg := "ok", department := d.depts } := rfl

theorem Directory.env_deptUsersResp (d : Directory) (now : Int) (i : Int) :
    (d.env now).deptUsersResp i =
      .ok { errcode := some 0, errmsg := "ok", userlist := d.users i } := rfl

theorem Directory.env_userDetailResp (d : Directory) (now : Int) (u : String) :
    (d.env now).userDetailResp u = .ok { d.detail u with errcode := some 0 } := rfl

/-- Over a directory fixture the inner scan collects the detail of exactly the
matching summaries, one detail call each, in order. -/
theorem detailLoop_fixture (d : Directory) (now : Int) (tok target : String)
    (users : List UserSummary) :
    detailLoop (d.env now) tok target users =
      (.ok ((users.filter (fun u => u.name == target)).map
          (fun u => { d.detail u.userid with errcode := some 0 })),
        (users.filter (fun u => u.name == target)).map
          (fun u => Call.userDetail u.userid)) := by
  induction users with
  | nil => simp [detailLoop]
  | cons u us ih =>
    cases h : (u.name == target) with
    | true => simp [detailLoop, h, get_user_detail, Directory.env_userDetailResp, ih]
    | false => simp [detailLoop, h, ih]

/-- Over a directory fixture the outer loop visits every department in order
and collects all matches. -/
theorem findUserLoop_fixture (d : Directory) (now : Int) (tok target : String)
    (depts : List Department) :
    findUserLoop (d.env now) tok target depts =
      (.ok (expectedFound d target depts), expectedFindTrace d target depts) := by
  induction depts with
  | nil => simp [findUserLoop, expectedFound, expectedFindTrace]
  | cons dep rest ih =>
    simp [findUserLoop, get_department_users, Directory.env_deptUsersResp,
      detailLoop_fixture, ih, expectedFound, expectedFindTrace]

/-- The expected details are exactly the details of all matching summaries. -/
theorem expectedFound_eq_map (d : Directory) (target : String) (depts : List Department) :
    expectedFound d target depts =
      (matchingSummaries d target depts).map
        (fun u => { d.detail u.userid with errcode := some 0 }) := by
  induction depts with
  | nil => simp [expectedFound, matchingSummaries]
  | cons dep rest ih => simp [expectedFound, matchingSummaries, ih]

/-- Detail calls contribute no membership-call ids. -/
theorem filterMap_deptUsersId_userDetail (l : List UserSummary) :
    (l.map (fun u => Call.userDetail u.userid)).filterMap Call.deptUsersId = [] := by
  induction l with
  | nil => simp
  | cons u us ih => simp [Call.deptUsersId, ih]

/-- The expected trace performs exactly one membership call per department in
department order. -/
theorem expectedFindTrace_deptUsers (d : Directory) (target : String)
    (depts : List Department) :
    (expectedFindTrace d target depts).filterMap Call.deptUsersId =
      depts.map Department.id := by
  induction depts with
  | nil => simp [expectedFindTrace]
  | cons dep rest ih =>
    simp [expectedFindTrace, Call.deptUsersId, filterMap_deptUsersId_userDetail, ih]

/-- Membership calls contribute no detail-call ids. -/
theorem filterMap_userDetailId_map (l : List UserSummary) :
    (l.map (fun u => Call.userDetail u.userid)).filterMap Call.userDetailId =
      l.map UserSummary.userid := by
  induction l with
  | nil => simp
  | cons u us ih => simp [Call.userDetailId, ih]

/-- Variant of the previous fact stated through function composition. -/
theorem filterMap_userDetailId_comp (l : List UserSummary) :
    l.filterMap (Call.userDetailId ∘ fun u => Call.userDetail u.userid) =
      l.map UserSummary.userid := by
  induction l with
  | nil => rfl
  | cons u us ih => simp [List.filterMap_cons, Call.userDetailId, Function.comp, ih]

/-- The expected trace performs exactly one detail call per matching summary,
in visit order. -/
theorem expectedFindTrace_userDetail (d : Directory) (target : String)
    (depts : List Department) :
    (expectedFindTrace d target depts).filterMap Call.userDetailId =
      (matchingSummaries d target depts).map UserSummary.userid := by
  induction depts with
  | nil => simp [expectedFindTrace, matchingSummaries]
  | cons dep rest ih =>
    simp [expectedFindTrace, matchingSummaries, Call.userDetailId,
      filterMap_userDetailId_map, filterMap_userDetailId_comp, ih]

/-- The search loop itself never issues a department-list call. -/
theorem expectedFindTrace_no_deptList (d : Directory) (target : String)
    (depts : List Department) :
    (expectedFindTrace d target depts).countP Call.isDeptList = 0 := by
  induction depts with
  | nil => simp [expectedFindTrace]
  | cons dep rest ih =>
    simp [expectedFindTrace, Call.isDeptList, List.countP_cons, List.countP_append, ih]

/-- The dispatcher branch for `find_user_by_name` over a fixture, entered with
a valid cached legacy token: one department-list call followed by the expected
search trace, the state unchanged, the text decided by whether any match
exists. -/
theorem call_tool_find_fixture (d : Directory) (now : Int) (s : ServerState)
    (t target : String)
    (hs : s.access_token = some t) (ht : t ≠ "") (hlt : now < s.token_expires) :
    call_tool (d.env now) s "find_user_by_name" { name := some target } =
      ((if (expectedFound d target d.depts).isEmpty then
          [{ type := "text", text := "User not found: " ++ target }]
        else
          [{ type := "text",
             text := "Found users: " ++ renderFoundUsers (expectedFound d target d.depts) }]),
        s, Call.deptList :: expectedFindTrace d target d.depts) := by
  have htok : get_access_token (d.env now) s = (.ok t, s, []) :=
    get_access_token_cached (d.env now) s t hs ht (by rw [Directory.env_now]; exact hlt)
  by_cases hemp : (expectedFound d target d.depts).isEmpty
  · simp [call_tool, htok, get_department_list, Directory.env_deptListResp,
      findUserLoop_fixture, hemp]
  · simp [call_tool, htok, get_department_list, Directory.env_deptListResp,
      findUserLoop_fixture, hemp]

/-- C1: for each token scope, a call finding a present cached token whose
stored expiry lies after the current time returns that identical value with
no transport call; a call finding no valid cached token performs exactly one
authentication exchange, stores the fetched token, and returns it. -/
theorem c1_token_cache :
    (∀ env s t, s.access_token = some t → t ≠ "" → env.now < s.token_expires →
      get_access_token env s = (.ok t, s, [])) ∧
    (∀ env s t, s.v2_access_token = some t → t ≠ "" → env.now < s.v2_token_expires →
      get_v2_access_token env s = (.ok t, s, [])) ∧
    (∀ env s r, legacyCacheValid env s = false → credsPresent env = true →
      env.legacyTokenResp = .ok r → r.errcode = some 0 →
      get_access_token env s =
        (.ok r.access_token,
          { s with access_token := some r.access_token
                   token_expires := env.now + r.expires_in - 200 },
          [.legacyToken])) ∧
    (∀ env s r tok, v2CacheValid env s = false → credsPresent env = true →
      env.v2TokenResp = .ok r → r.accessToken = some tok →
      get_v2_access_token env s =
        (.ok tok,
          { s with v2_access_token := some tok
                   v2_token_expires := env.now + r.expireIn.getD 7200 - 200 },
          [.v2Token])) :=
  ⟨fun env s t hs ht hlt => get_access_token_cached env s t hs ht hlt,
   fun env s t hs ht hlt => get_v2_access_token_cached env s t hs ht hlt,
   fun env s r hc hk hr h0 => get_access_token_fresh env s r hc hk hr h0,
   fun env s r tok hc hk hr h0 => get_v2_access_token_fresh env s r tok hc hk hr h0⟩

/-- Witness for C1 at a concrete fixture: a cache hit in each scope returns
the cached value with no call, and a fresh fetch from the empty initial state
stores and returns the upstream token. -/
theorem c1_token_cache_witness :
    get_access_token (sampleDir.env 100) cachedState = (.ok "CTOK", cachedState, []) ∧
    get_v2_access_token (sampleDir.env 100) cachedState = (.ok "CV2", cachedState, []) ∧
    get_access_token (sampleDir.env 100) ServerState.init =
      (.ok "LTOK",
        { access_token := some "LTOK", token_expires := 7100
          v2_access_token := none, v2_token_expires := 0 },
        [.legacyToken]) ∧
    get_v2_access_token (sampleDir.env 100) ServerState.init =
      (.ok "VTOK",
        { access_token := none, token_expires := 0
          v2_access_token := some "VTOK", v2_token_expires := 7100 },
        [.v2Token]) :=
  ⟨c1_token_cache.1 (sampleDir.env 100) cachedState "CTOK" rfl (by decide) (by decide),
   c1_token_cache.2.1 (sampleDir.env 100) cachedState "CV2" rfl (by decide) (by decide),
   c1_token_cache.2.2.1 (sampleDir.env 100) ServerState.init
     { errcode := some 0, errmsg := "ok", access_token := "LTOK", expires_in := 7200 }
     rfl rfl rfl rfl,
   c1_token_cache.2.2.2 (sampleDir.env 100) ServerState.init
     { accessToken := some "VTOK", expireIn := some 7200, code := "0", message := "ok" }
     "VTOK" rfl rfl rfl rfl⟩

/-- C2: whenever a fresh token is stored (either scope) its stored expiry is
the current time plus the upstream-declared lifetime minus exactly 200
seconds; a present cached token is treated as valid exactly when the current
time is strictly below the stored expiry; consequently a token the cache
serves as valid always has more than 200 seconds of upstream lifetime left. -/
theorem c2_safety_margin :
    (∀ env s r, legacyCacheValid env s = false → credsPresent env = true →
      env.legacyTokenResp = .ok r → r.errcode = some 0 →
      (get_access_token env s).2.1.token_expires = env.now + r.expires_in - 200) ∧
    (∀ env s r tok, v2CacheValid env s = false → credsPresent env = true →
      env.v2TokenResp = .ok r → r.accessToken = some tok →
      (get_v2_access_token env s).2.1.v2_token_expires =
        env.now + r.expireIn.getD 7200 - 200) ∧
    (∀ env s t, s.access_token = some t → t ≠ "" →
      (legacyCacheValid env s = true ↔ env.now < s.token_expires)) ∧
    (∀ env s t, s.v2_access_token = some t → t ≠ "" →
      (v2CacheValid env s = true ↔ env.now < s.v2_token_expires)) ∧
    (∀ env1 env2 s r, legacyCacheValid env1 s = false → credsPresent env1 = true →
      env1.legacyTokenResp = .ok r → r.errcode = some 0 →
      legacyCacheValid env2 (get_access_token env1 s).2.1 = true →
      200 ≤ (env1.now + r.expires_in) - env2.now) ∧
    (∀ env1 env2 s r tok, v2CacheValid env1 s = false → credsPresent env1 = true →
      env1.v2TokenResp = .ok r → r.accessToken = some tok →
      v2CacheValid env2 (get_v2_access_token env1 s).2.1 = true →
      200 ≤ (env1.now + r.expireIn.getD 7200) - env2.now) := by
  refine ⟨?_, ?_, ?_, ?_, ?_, ?_⟩
  · intro env s r hc hk hr h0
    rw [get_access_token_fresh env s r hc hk hr h0]
  · intro env s r tok hc hk hr h0
    rw [get_v2_access_token_fresh env s r tok hc hk hr h0]
  · intro env s t hs ht
    simp [legacyCacheValid, truthy, hs, ht]
  · intro env s t hs ht
    simp [v2CacheValid, truthy, hs, ht]
  · intro env1 env2 s r hc hk hr h0 hv
    rw [get_access_token_fresh env1 s r hc hk hr h0] at hv
    simp [legacyCacheValid, truthy] at hv
    omega
  · intro env1 env2 s r tok hc hk hr h0 hv
    rw [get_v2_access_token_fresh env1 s r tok hc hk hr h0] at hv
    simp [v2CacheValid, truthy] at hv
    omega

/-- Witness for C2 at a concrete fixture: the freshly stored legacy and v2
expiries equal 100 plus 7200 minus 200, the validity guard of a cached token
is exactly the clock comparison, and a token still served at clock 5000 has
2300 seconds of upstream lifetime left. -/
theorem c2_safety_margin_witness :
    (get_access_token (sampleDir.env 100) ServerState.init).2.1.token_expires = 7100 ∧
    (get_v2_access_token (sampleDir.env 100) ServerState.init).2.1.v2_token_expires = 7100 ∧
    (legacyCacheValid (sampleDir.env 500) cachedState = true ↔ (500:Int) < 1000) ∧
    (200:Int) ≤ (100 + 7200) - 5000 := by
  refine ⟨?_, ?_, ?_, ?_⟩
  · exact c2_safety_margin.1 (sampleDir.env 100) ServerState.init
      { errcode := some 0, errmsg := "ok", access_token := "LTOK", expires_in := 7200 }
      rfl rfl rfl rfl
  · exact c2_safety_margin.2.1 (sampleDir.env 100) ServerState.init
      { accessToken := some "VTOK", expireIn := some 7200, code := "0", message := "ok" }
      "VTOK" rfl rfl rfl rfl
  · exact c2_safety_margin.2.2.1 (sampleDir.env 500) cachedState "CTOK" rfl (by decide)
  · exact c2_safety_margin.2.2.2.2.1 (sampleDir.env 100) (sampleDir.env 5000)
      ServerState.init
      { errcode := some 0, errmsg := "ok", access_token := "LTOK", expires_in := 7200 }
      rfl rfl rfl rfl (by decide)

/-- C3: against any directory fixture, entered with a valid cached token, the
`find_user_by_name` branch returns the detail records of ALL matching users
(rendered in the found-users envelope), and its transport trace is exactly
one department-list call, one membership call per department in department
order with no early stop, and one detail call per matching summary. -/
theorem c3_find_user_by_name (d : Directory) (now : Int) (s : ServerState)
    (t target : String)
    (hs : s.access_token = some t) (ht : t ≠ "") (hlt : now < s.token_expires)
    (hne : matchingSummaries d target d.depts ≠ []) :
    call_tool (d.env now) s "find_user_by_name" { name := some target } =
      ([{ type := "text",
          text := "Found users: " ++ renderFoundUsers (expectedFound d target d.depts) }],
        s, Call.deptList :: expectedFindTrace d target d.depts) ∧
    expectedFound d target d.depts =
      (matchingSummaries d target d.depts).map
        (fun u => { d.detail u.userid with errcode := some 0 }) ∧
    (Call.deptList :: expectedFindTrace d target d.depts).countP Call.isDeptList = 1 ∧
    (expectedFindTrace d target d.depts).filterMap Call.deptUsersId =
      d.depts.map Department.id ∧
    (expectedFindTrace d target d.depts).filterMap Call.userDetailId =
      (matchingSummaries d target d.depts).map UserSummary.userid := by
  have hmap := expectedFound_eq_map d target d.depts
  have hemp : (expectedFound d target d.depts).isEmpty = false := by
    rw [hmap]
    cases h : matchingSummaries d target d.depts with
    | nil => exact absurd h hne
    | cons a l => simp
  refine ⟨?_, hmap, ?_, expectedFindTrace_deptUsers d target d.depts,
    expectedFindTrace_userDetail d target d.depts⟩
  · rw [call_tool_find_fixture d now s t target hs ht hlt]
    simp [hemp]
  · simp [List.countP_cons, Call.isDeptList, expectedFindTrace_no_deptList]

/-- Witness for C3 at a two-department fixture holding two users named Alice:
both details are returned and the trace is the department-list call, the two
membership calls in order, and one detail call per match. -/
theorem c3_find_user_by_name_witness :
    call_tool (sampleDir.env 100) cachedState "find_user_by_name"
        { name := some "Alice" } =
      ([{ type := "text",
          text := "Found users: " ++
            renderFoundUsers (expectedFound sampleDir "Alice" sampleDir.depts) }],
        cachedState, Call.deptList :: expectedFindTrace sampleDir "Alice" sampleDir.depts) ∧
    expectedFindTrace sampleDir "Alice" sampleDir.depts =
      [Call.deptUsers 1, .userDetail "u1", .deptUsers 2, .userDetail "u3"] ∧
    expectedFound sampleDir "Alice" sampleDir.depts =
      [{ errcode := some 0, errmsg := "ok", userid := "u1", name := "nm-u1", mobile := "m-u1" },
       { errcode := some 0, errmsg := "ok", userid := "u3", name := "nm-u3", mobile := "m-u3" }] := by
  have h := c3_find_user_by_name sampleDir 100 cachedState "CTOK" "Alice" rfl
    (by decide) (by decide) (by decide)
  exact ⟨h.1, rfl, rfl⟩

/-- C7: against any directory fixture in which no user of any department has
the searched name, the `find_user_by_name` branch returns the plain
not-found text (not an error result, no exception), after one membership
call for every department. -/
theorem c7_not_found (d : Directory) (now : Int) (s : ServerState) (t target : String)
    (hs : s.access_token = some t) (ht : t ≠ "") (hlt : now < s.token_expires)
    (hnone : matchingSummaries d target d.depts = []) :
    call_tool (d.env now) s "find_user_by_name" { name := some target } =
      ([{ type := "text", text := "User not found: " ++ target }], s,
        Call.deptList :: expectedFindTrace d target d.depts) ∧
    (expectedFindTrace d target d.depts).filterMap Call.deptUsersId =
      d.depts.map Department.id := by
  have hemp : (expectedFound d target d.depts).isEmpty = true := by
    rw [expectedFound_eq_map, hnone]
    rfl
  refine ⟨?_, expectedFindTrace_deptUsers d target d.depts⟩
  rw [call_tool_find_fixture d now s t target hs ht hlt]
  simp [hemp]

/-- Witness for C7: searching a name absent from both departments yields the
not-found text after membership calls on both departments. -/
theorem c7_not_found_witness :
    call_tool (sampleDir.env 100) cachedState "find_user_by_name"
        { name := some "Zoe" } =
      ([{ type := "text", text := "User not found: Zoe" }], cachedState,
        Call.deptList :: expectedFindTrace sampleDir "Zoe" sampleDir.depts) ∧
    expectedFindTrace sampleDir "Zoe" sampleDir.depts =
      [Call.deptUsers 1, .deptUsers 2] := by
  have h := c7_not_found sampleDir 100 cachedState "CTOK" "Zoe" rfl
    (by decide) (by decide) (by decide)
  exact ⟨h.1, rfl⟩

/-- C4 is refuted as stated: the dispatcher does catch every orchestration
fault and answer unknown tools with a plain text result, but in the
`find_user_by_name` branch the assignment `name = arguments["name"]` rebinds
the variable interpolated by the except block, so the error text carries the
searched user name instead of the failing tool name.  Here a transport fault
during the department-list call of a search for "Alice" yields the text
"Error calling tool Alice: ...", which does not name the tool. -/
theorem c4_shadowed_tool_name :
    call_tool deptListFailEnv cachedState "find_user_by_name"
        { name := some "Alice" } =
      ([{ type := "text",
          text := "Error calling tool Alice: Connection reset by peer" }],
        cachedState, [Call.deptList]) ∧
    ([{ type := "text",
        text := "Error calling tool Alice: Connection reset by peer" }] :
        List TextContent) ≠
      [{ type := "text",
         text := "Error calling tool find_user_by_name: Connection reset by peer" }] ∧
    call_tool deptListFailEnv cachedState "frobnicate" {} =
      ([{ type := "text", text := "Unknown tool: frobnicate" }], cachedState, []) :=
  ⟨rfl, by decide, rfl⟩

/-- C5 counterexample: construction consults no environment variable at all
(the initial state is one fixed value), absence of the credentials is only
detected inside a token acquisition that needs a refresh, and the environment
is read again on every acquisition, so the same freshly constructed state
succeeds once the variables are present; detection is therefore neither at
construction time nor unretried. -/
theorem c5_counterexample :
    ServerState.init =
      { access_token := none, token_expires := 0
        v2_access_token := none, v2_token_expires := 0 } ∧
    get_access_token noCredEnv ServerState.init =
      (.error missingCredsMsg, ServerState.init, []) ∧
    get_access_token (sampleDir.env 100) ServerState.init =
      (.ok "LTOK",
        { access_token := some "LTOK", token_expires := 7100
          v2_access_token := none, v2_token_expires := 0 },
        [.legacyToken]) :=
  ⟨rfl, rfl, rfl⟩

/-- C5 amended: absence of either credential variable is detected inside each
token acquisition whose cache is invalid, before any transport call; it
raises the credential error and leaves the state unchanged, aborting that
operation; the environment is re-read on each acquisition. -/
theorem c5_credential_check (env : Env) (s : ServerState)
    (hk : credsPresent env = false) :
    (legacyCacheValid env s = false →
      get_access_token env s = (.error missingCredsMsg, s, [])) ∧
    (v2CacheValid env s = false →
      get_v2_access_token env s = (.error missingCredsMsg, s, [])) :=
  ⟨fun hc => get_access_token_no_creds env s hc hk,
   fun hc => get_v2_access_token_no_creds env s hc hk⟩

/-- Witness for the amended C5 at the credential-less environment. -/
theorem c5_credential_check_witness :
    get_access_token noCredEnv ServerState.init =
      (.error missingCredsMsg, ServerState.init, []) ∧
    get_v2_access_token noCredEnv ServerState.init =
      (.error missingCredsMsg, ServerState.init, []) := by
  have h := c5_credential_check noCredEnv ServerState.init rfl
  exact ⟨h.1 rfl, h.2 rfl⟩

/-- C8: with no valid cached token and credentials present, the legacy
exchange raises exactly when the parsed error code is non-zero and the v2
exchange raises exactly when the response lacks the token field; in both
failure cases the message is the fixed prefix followed by the rendered raw
payload. -/
theorem c8_upstream_auth_errors :
    (∀ env s r c, legacyCacheValid env s = false → credsPresent env = true →
      env.legacyTokenResp = .ok r → r.errcode = some c →
      ((∃ e, (get_access_token env s).1 = .error e) ↔ c ≠ 0)) ∧
    (∀ env s r c, legacyCacheValid env s = false → credsPresent env = true →
      env.legacyTokenResp = .ok r → r.errcode = some c → c ≠ 0 →
      get_access_token env s =
        (.error ("Failed to get access token: " ++ r.render), s, [.legacyToken])) ∧
    (∀ env s r, v2CacheValid env s = false → credsPresent env = true →
      env.v2TokenResp = .ok r →
      ((∃ e, (get_v2_access_token env s).1 = .error e) ↔ r.accessToken = none)) ∧
    (∀ env s r, v2CacheValid env s = false → credsPresent env = true →
      env.v2TokenResp = .ok r → r.accessToken = none →
      get_v2_access_token env s =
        (.error ("Failed to get v2 access token: " ++ r.render), s, [.v2Token])) := by
  refine ⟨?_, ?_, ?_, ?_⟩
  · intro env s r c hc hk hr h0
    constructor
    · rintro ⟨e, he⟩ hcz
      subst hcz
      rw [get_access_token_fresh env s r hc hk hr h0] at he
      simp at he
    · intro hcz
      exact ⟨_, by rw [get_access_token_authfail env s r c hc hk hr h0 hcz]⟩
  · intro env s r c hc hk hr h0 hcz
    exact get_access_token_authfail env s r c hc hk hr h0 hcz
  · intro env s r hc hk hr
    constructor
    · rintro ⟨e, he⟩
      cases h : r.accessToken with
      | none => rfl
      | some tok =>
        rw [get_v2_access_token_fresh env s r tok hc hk hr h] at he
        simp at he
    · intro h0
      exact ⟨_, by rw [get_v2_access_token_authfail env s r hc hk hr h0]⟩
  · intro env s r hc hk hr h0
    exact get_v2_access_token_authfail env s r hc hk hr h0

/-- Witness for C8: a rejected legacy exchange (error code 40089) raises with
the rendered payload in the message, and so does a v2 exchange lacking the
token field. -/
theorem c8_upstream_auth_errors_witness :
    get_access_token legacyAuthFailEnv ServerState.init =
      (.error ("Failed to get access token: " ++
          LegacyTokenResp.render
            { errcode := some 40089, errmsg := "invalid credential",
              access_token := "", expires_in := 7200 }),
        ServerState.init, [.legacyToken]) ∧
    get_v2_access_token v2AuthFailEnv ServerState.init =
      (.error ("Failed to get v2 access token: " ++
          V2TokenResp.render
            { accessToken := none, expireIn := none,
              code := "Forbidden", message := "invalid appKey" }),
        ServerState.init, [.v2Token]) ∧
    ((∃ e, (get_access_token legacyAuthFailEnv ServerState.init).1 = .error e) ↔
      (40089:Int) ≠ 0) := by
  refine ⟨?_, ?_, ?_⟩
  · exact c8_upstream_auth_errors.2.1 legacyAuthFailEnv ServerState.init
      { errcode := some 40089, errmsg := "invalid credential",
        access_token := "", expires_in := 7200 }
      40089 rfl rfl rfl rfl (by decide)
  · exact c8_upstream_auth_errors.2.2.2 v2AuthFailEnv ServerState.init
      { accessToken := none, expireIn := none,
        code := "Forbidden", message := "invalid appKey" }
      rfl rfl rfl rfl
  · exact c8_upstream_auth_errors.1 legacyAuthFailEnv ServerState.init
      { errcode := some 40089, errmsg := "invalid credential",
        access_token := "", expires_in := 7200 }
      40089 rfl rfl rfl rfl

/-- C6: with both time bounds absent the calendar routine takes a start of
the current time and an end of the current time plus seven days, in epoch
milliseconds, and transmits exactly their ISO-8601 renderings with the
+08:00 offset as timeMin and timeMax of the upstream request; concretely,
epoch millisecond 1704067200000 is sent as 2024-01-01T08:00:00+08:00. -/
theorem c6_calendar_defaults (env : Env) (tok uid : String) (r : UnionIdResp)
    (mr : Int) (nt : Option String)
    (hu : env.unionIdResp uid = .ok r) (h0 : r.errcode = some 0) :
    (get_calendar_list env tok uid none none mr nt).2 =
      [Call.unionId uid,
       Call.calendar r.unionid
         { maxResults := mr
           timeMin := fmtDingTime (env.now * 1000)
           timeMax := fmtDingTime ((env.now + 7 * 24 * 3600) * 1000)
           nextToken := if truthy nt then nt else none }] ∧
    (env.now + 7 * 24 * 3600) * 1000 = env.now * 1000 + 604800000 ∧
    (∃ p, fmtDingTime (env.now * 1000) = p ++ "+08:00") ∧
    (∃ p, fmtDingTime ((env.now + 7 * 24 * 3600) * 1000) = p ++ "+08:00") ∧
    fmtDingTime 1704067200000 = "2024-01-01T08:00:00+08:00" := by
  refine ⟨?_, by ring, ⟨_, rfl⟩, ⟨_, rfl⟩, rfl⟩
  have hun : get_user_unionid env tok uid = (.ok r.unionid, [.unionId uid]) := by
    simp [get_user_unionid, hu, h0]
  simp only [get_calendar_list, hun]
  cases hres : env.calendarResp r.unionid
      { maxResults := mr
        timeMin := fmtDingTime (env.now * 1000)
        timeMax := fmtDingTime ((env.now + 7 * 24 * 3600) * 1000)
        nextToken := if truthy nt then nt else none } with
  | error e => simp [hres]
  | ok cr => cases h2 : cr.events.isSome <;> simp [hres, h2]

/-- Witness for C6 at the fixture with clock 100: the request window is the
formatted pair 100000 and 604900000 epoch milliseconds. -/
theorem c6_calendar_defaults_witness :
    (get_calendar_list (sampleDir.env 100) "VTOK" "u1" none none 50 none).2 =
      [Call.unionId "u1",
       Call.calendar "union-u1"
         { maxResults := 50, timeMin := fmtDingTime 100000
           timeMax := fmtDingTime 604900000, nextToken := none }] ∧
    fmtDingTime 1704067200000 = "2024-01-01T08:00:00+08:00" := by
  have h := c6_calendar_defaults (sampleDir.env 100) "VTOK" "u1"
    { errcode := some 0, errmsg := "ok", unionid := "union-u1" } 50 none rfl rfl
  exact ⟨h.1, h.2.2.2.2⟩

/-- C9 counterexample: the event with no optional fields normalizes to a
record whose start_time and end_time are none (serialized as null), so it is
not the case that no normalized field is ever null; the missing attendee
list becomes the empty list rather than a textual placeholder. -/
theorem c9_counterexample :
    formatEvent emptyEvent =
      { summary := "无标题", start_time := none, end_time := none
        location := "无地点", organizer := "未知", description := "无描述"
        status := "未知", attendees := [], online_meeting := "无会议链接" } ∧
    (formatEvent emptyEvent).start_time = none :=
  ⟨rfl, rfl⟩

/-- C9 amended: every field of the normalized record is present; a missing
summary becomes the literal placeholder, a missing location or a missing or
empty meetingRooms list yields the deterministic placeholder location, a
present first meeting room is used verbatim, a missing attendee list becomes
the empty list (not a textual placeholder), while start_time and end_time
are exactly the upstream dateTime values and are null when those are
missing. -/
theorem c9_defensive_defaults (e : UpstreamEvent) :
    (e.summary = none → (formatEvent e).summary = "无标题") ∧
    (e.location = none → (formatEvent e).location = "无地点") ∧
    (∀ loc, e.location = some loc → loc.meetingRooms = none →
      (formatEvent e).location = "无地点") ∧
    (∀ loc, e.location = some loc → loc.meetingRooms = some [] →
      (formatEvent e).location = "无地点") ∧
    (∀ loc r rs, e.location = some loc → loc.meetingRooms = some (r :: rs) →
      (formatEvent e).location = r) ∧
    (e.attendees = none → (formatEvent e).attendees = []) ∧
    (formatEvent e).start_time = e.start.bind EventTime.dateTime ∧
    (formatEvent e).end_time = e.finish.bind EventTime.dateTime := by
  refine ⟨?_, ?_, ?_, ?_, ?_, ?_, rfl, rfl⟩
  · intro h; simp [formatEvent, h]
  · intro h; simp [formatEvent, h]
  · intro loc h1 h2; simp [formatEvent, h1, h2]
  · intro loc h1 h2; simp [formatEvent, h1, h2]
  · intro loc r rs h1 h2; simp [formatEvent, h1, h2]
  · intro h; simp [formatEvent, h]

/-- Witness for the amended C9 at an event with one meeting room and nothing
else: placeholders for summary, the room name as location, the empty
attendee list, and a null start_time. -/
theorem c9_defensive_defaults_witness :
    (formatEvent sampleEvent).summary = "无标题" ∧
    (formatEvent sampleEvent).location = "RoomA" ∧
    (formatEvent sampleEvent).attendees = [] ∧
    (formatEvent sampleEvent).start_time = none := by
  have h := c9_defensive_defaults sampleEvent
  exact ⟨h.1 rfl, h.2.2.2.2.1 { meetingRooms := some ["RoomA"] } "RoomA" [] rfl rfl,
    h.2.2.2.2.2.1 rfl, h.2.2.2.2.2.2.1⟩

/-- C10: a supplied start or end bound equal to 0 epoch milliseconds is
treated exactly like an omitted bound, because the presence test is a
falsiness check: the call behaves identically to the call with the bound
omitted, receiving the default now / now plus seven days window. -/
theorem c10_zero_bound_defaults (env : Env) (tok uid : String) (mr : Int)
    (nt : Option String) :
    get_calendar_list env tok uid (some 0) (some 0) mr nt =
      get_calendar_list env tok uid none none mr nt ∧
    get_calendar_list env tok uid (some 0) none mr nt =
      get_calendar_list env tok uid none none mr nt ∧
    get_calendar_list env tok uid none (some 0) mr nt =
      get_calendar_list env tok uid none none mr nt := by
  refine ⟨?_, ?_, ?_⟩ <;> simp [get_calendar_list]
